import Mathlib

/-!
Shallow embedding of `carculator_truck`'s `EnergyConsumptionModel`
(`src/carculator_truck/energy_consumption.py`).

Machine reals are modelled as `ℚ`; `np.sin` is kept abstract as a function
parameter `npSin : ℚ → ℚ` (the theorems hold for every choice, and concrete
evaluations only ever apply it at gradient values actually stored).
Python exceptions are modelled with `Except PyError`.

The source reshapes the flat cycle and gradient buffers to shape
`(-1, 1, 1, 6)`; we keep the flat buffer (`List ℚ`) and expose the reshaped
view through `reshape6`, indexing time rows `t : ℕ` and last-axis columns
`k : Fin 6`.  The singleton middle axes carry no data and are dropped.
Vehicle-parameter tensors enter elementwise after the source's `.T`
transposes, so parameters are modelled as per-column values `Fin 6 → ℚ`
(the remaining variant axes are carried pointwise and play no role in any
claim).
-/

namespace CarculatorTruck

/-- Gravitational constant `9.81` as written in the source. -/
def grav : ℚ := 981 / 100

/-- Default air density `rho_air = 1.204` from the constructor signature. -/
def rhoDefault : ℚ := 1204 / 1000

/-- Semantics of `np.clip(x, lo, hi)`: `min (max x lo) hi`. -/
def npClip (x lo hi : ℚ) : ℚ := min (max x lo) hi

/-- Outcomes of the Python code paths reachable in `energy_consumption.py`,
together with the typed errors named by the specification
(`configurationError`, `shapeMismatchError`, `domainError`), which the code
itself never constructs. -/
inductive PyError where
  | keyError
  | typeErrorRaiseStr (msg : String)
  | valueError
  | attributeError
  | configurationError
  | shapeMismatchError
  | domainError
deriving DecidableEq

/-- State built by `EnergyConsumptionModel.__init__`: the flat resolved cycle
buffer (km/h), the flat gradient buffer (degrees), the air density and the
cycle name.  Both buffers have passed `reshape(-1,1,1,6)`, so their lengths
are multiples of 6. -/
structure EnergyConsumptionModel where
  cycle : List ℚ
  gradientL : List ℚ
  rho_air : ℚ
  cycle_name : String
deriving DecidableEq

/-- The constructor's duck-typed `cycle` argument: a cycle name (`str`), an
explicit `np.ndarray`, or a value of any other type. -/
inductive CycleInput where
  | named (s : String)
  | explicitArr (a : List ℚ)
  | other

/-- Modelled from the spec: `get_standard_driving_cycle` lives in
`driving_cycles.py`, which is not under `src/`; per the spec the
driving-cycle resolver returns the named second-by-second speed sequence and
"fails with lookup error if name unknown" (a Python `KeyError`).  The
registry content is abstracted as a partial map. -/
def get_standard_driving_cycle (registry : String → Option (List ℚ))
    (name : String) : Except PyError (List ℚ) :=
  match registry name with
  | some c => .ok c
  | none => .error .keyError

/-- Modelled from the spec: `get_gradients` lives in `gradients.py`, which is
not under `src/`; per the spec the gradient resolver returns an angle
sequence keyed by the cycle identity, failing by lookup error when the key is
unknown. -/
def get_gradients (gradientsReg : String → Option (List ℚ))
    (name : String) : Except PyError (List ℚ) :=
  match gradientsReg name with
  | some g => .ok g
  | none => .error .keyError

/-- Semantics of `ndarray.reshape(-1, 1, 1, 6)` on a flat buffer: the buffer
is kept row-major and unchanged, and the call raises `ValueError` unless the
total number of samples is divisible by 6. -/
def reshapeLast6 (l : List ℚ) : Except PyError (List ℚ) :=
  if 6 ∣ l.length then .ok l else .error .valueError

/-- Tail of `EnergyConsumptionModel.__init__` (lines 69-83): gradients are
looked up by the resolved cycle name and both buffers are reshaped to
`(-1,1,1,6)`, gradient first, then cycle. -/
def initResolved (gradientsReg : String → Option (List ℚ)) (name : String)
    (cyc : List ℚ) (rho_air : ℚ) : Except PyError EnergyConsumptionModel :=
  match get_gradients gradientsReg name with
  | .error e => .error e
  | .ok g =>
    match reshapeLast6 g with
    | .error e => .error e
    | .ok g2 =>
      match reshapeLast6 cyc with
      | .error e => .error e
      | .ok c2 => .ok ⟨c2, g2, rho_air, name⟩

/-- `EnergyConsumptionModel.__init__` (lines 49-83).  A string input is
resolved through the registry, with `KeyError` caught and replaced by
`raise ("The driving cycle specified could not be found.")` — in Python 3,
raising a plain string is a `TypeError`.  An array input is used directly
with `cycle_name = "custom"`.  Any other input hits
`raise ("The format of the driving cycle is not valid.")`, again a
`TypeError`.  The successful paths continue with `initResolved`. -/
def initECM (registry gradientsReg : String → Option (List ℚ))
    (input : CycleInput) (rho_air : ℚ) :
    Except PyError EnergyConsumptionModel :=
  match input with
  | .named s =>
    match get_standard_driving_cycle registry s with
    | .error .keyError =>
        .error (.typeErrorRaiseStr "The driving cycle specified could not be found.")
    | .error e => .error e
    | .ok cyc => initResolved gradientsReg s cyc rho_air
  | .explicitArr a => initResolved gradientsReg "custom" a rho_air
  | .other =>
      .error (.typeErrorRaiseStr "The format of the driving cycle is not valid.")

/-- Number of time rows of the reshaped `(-1,1,1,6)` view of the cycle. -/
def nrows (m : EnergyConsumptionModel) : ℕ := m.cycle.length / 6

/-- Row-major access to a flat buffer viewed with last axis 6:
entry at time row `t`, column `k`. -/
def reshape6 (l : List ℚ) (t : ℕ) (k : Fin 6) : ℚ :=
  l.getD (6 * t + k.val) 0

/-- Flat buffer of `self.velocity = (self.cycle * 1000) / 3600` (line 78). -/
def velocityList (m : EnergyConsumptionModel) : List ℚ :=
  m.cycle.map (fun x => x * 1000 / 3600)

/-- The velocity series viewed at time row `t`, column `k` (m/s). -/
def velocity (m : EnergyConsumptionModel) (t : ℕ) (k : Fin 6) : ℚ :=
  reshape6 (velocityList m) t k

/-- `self.acceleration` (lines 82-83): `np.zeros_like(self.velocity)` with
rows `1 : -1` assigned `(self.velocity[2:] - self.velocity[:-2]) / 2`.
Row slicing acts on axis 0 of the reshaped view, so row `t` with
`1 ≤ t ≤ nrows - 2` holds the centred difference of rows `t+1` and `t-1`,
and all other rows stay zero. -/
def acceleration (m : EnergyConsumptionModel) (t : ℕ) (k : Fin 6) : ℚ :=
  if 1 ≤ t ∧ t + 1 ≤ nrows m - 1 then
    (velocity m (t + 1) k - velocity m (t - 1) k) / 2
  else 0

/-- The gradient series viewed at time row `t`, column `k` (degrees). -/
def gradient (m : EnergyConsumptionModel) (t : ℕ) (k : Fin 6) : ℚ :=
  reshape6 m.gradientL t k

/-- `self.velocity.sum(axis=0)[0][0]` (lines 101 and 167): summing the
reshaped velocity over axis 0 and indexing the singleton axes leaves a
vector of six per-column sums; entry `k` is the metres travelled in
column `k`. -/
def distCol (m : EnergyConsumptionModel) (k : Fin 6) : ℚ :=
  Finset.sum (Finset.range (nrows m)) (fun t => velocity m t k)

/-- Sum of the whole flat velocity buffer, i.e. the total distance in metres
of the cycle read as one flat second-by-second series.  This is the
"sum of the velocity series" of the specification, used to compare against
the code's per-column `distCol`. -/
def velocityTotal (m : EnergyConsumptionModel) : ℚ :=
  (velocityList m).sum

/-- `aux_energy_per_km` (lines 85-111): `aux_power.T * shape[0] / distance
* 1000 / 1000`, then `(auxiliary_energy / efficiency).T`, read pointwise at
column `k`.  `shape[0]` is the number of time rows `nrows`. -/
def aux_energy_per_km (m : EnergyConsumptionModel) (aux_power : Fin 6 → ℚ)
    (efficiency : ℚ) (k : Fin 6) : ℚ :=
  aux_power k * (nrows m : ℚ) / distCol m k * 1000 / 1000 / efficiency

/-- The five positional parameter tensors of `motive_energy_per_km`, read
pointwise at column `k` after the source's transposes. -/
structure MotiveParams where
  driving_mass : Fin 6 → ℚ
  rr_coef : Fin 6 → ℚ
  drag_coef : Fin 6 → ℚ
  frontal_area : Fin 6 → ℚ
  ttw_efficiency : Fin 6 → ℚ

/-- A Python value passed for `recuperation_efficiency` or `motor_power`:
either a plain number (the declared defaults `0`), which has no `.values`
attribute, or a parameter tensor. -/
inductive PyVal where
  | num (q : ℚ)
  | arr (f : Fin 6 → ℚ)

/-- Line 172: `(driving_mass * rr_coef * 9.81).T * ones` — constant in time. -/
def rolling_resistance (p : MotiveParams) (k : Fin 6) : ℚ :=
  p.driving_mass k * p.rr_coef k * grav

/-- Line 174: `(frontal_area * drag_coef * self.rho_air / 2).T *
np.power(self.velocity, 2)`. -/
def air_resistance (m : EnergyConsumptionModel) (p : MotiveParams)
    (t : ℕ) (k : Fin 6) : ℚ :=
  p.frontal_area k * p.drag_coef k * m.rho_air / 2 * velocity m t k ^ 2

/-- Line 176: `(driving_mass * 9.81).T * np.sin(self.gradient)`, with
`np.sin` abstracted as `npSin`. -/
def gradient_resistance (npSin : ℚ → ℚ) (m : EnergyConsumptionModel)
    (p : MotiveParams) (t : ℕ) (k : Fin 6) : ℚ :=
  p.driving_mass k * grav * npSin (gradient m t k)

/-- Line 178: `self.acceleration * driving_mass.values.T`. -/
def inertia (m : EnergyConsumptionModel) (p : MotiveParams)
    (t : ℕ) (k : Fin 6) : ℚ :=
  acceleration m t k * p.driving_mass k

/-- Line 180: `np.where(inertia < 0, inertia * -1, 0)`. -/
def braking_loss (m : EnergyConsumptionModel) (p : MotiveParams)
    (t : ℕ) (k : Fin 6) : ℚ :=
  if inertia m p t k < 0 then inertia m p t k * (-1) else 0

/-- Line 182: `rolling_resistance + air_resistance + gradient_resistance +
inertia` — `braking_loss` is not added. -/
def total_resistance (npSin : ℚ → ℚ) (m : EnergyConsumptionModel)
    (p : MotiveParams) (t : ℕ) (k : Fin 6) : ℚ :=
  rolling_resistance p k + air_resistance m p t k
    + gradient_resistance npSin m p t k + inertia m p t k

/-- Lines 187-188: `total_power = np.clip(total_resistance * self.velocity,
0, None)`. -/
def total_power_clipped (npSin : ℚ → ℚ) (m : EnergyConsumptionModel)
    (p : MotiveParams) (t : ℕ) (k : Fin 6) : ℚ :=
  max (total_resistance npSin m p t k * velocity m t k) 0

/-- Lines 190-191: `recuperated_power = np.clip((braking_loss *
recuperation_efficiency.values.T) * self.velocity, 0,
motor_power.values.T * 1000)`. -/
def recuperated_power (m : EnergyConsumptionModel) (p : MotiveParams)
    (re mp : Fin 6 → ℚ) (t : ℕ) (k : Fin 6) : ℚ :=
  npClip (braking_loss m p t k * re k * velocity m t k) 0 (mp k * 1000)

/-- Line 194: `total_power -= recuperated_power` — the net power, before the
divisions.  It is not re-clipped. -/
def netPower (npSin : ℚ → ℚ) (m : EnergyConsumptionModel) (p : MotiveParams)
    (re mp : Fin 6 → ℚ) (t : ℕ) (k : Fin 6) : ℚ :=
  total_power_clipped npSin m p t k - recuperated_power m p re mp t k

/-- Lines 196-202: the returned tensor in non-debug mode; the net power is
divided in place by `distance` (line 167: the per-column metre sum divided
by 1000, i.e. km), then by `ttw_efficiency.values.T`, then by 1000, and the
result is returned with its time axis intact. -/
def motiveOut (npSin : ℚ → ℚ) (m : EnergyConsumptionModel) (p : MotiveParams)
    (re mp : Fin 6 → ℚ) (t : ℕ) (k : Fin 6) : ℚ :=
  netPower npSin m p re mp t k / (distCol m k / 1000)
    / p.ttw_efficiency k / 1000

/-- Line 208: `rolling_resistance *= self.velocity` (debug branch). -/
def debugRolling (m : EnergyConsumptionModel) (p : MotiveParams)
    (t : ℕ) (k : Fin 6) : ℚ :=
  rolling_resistance p k * velocity m t k

/-- Line 209: `air_resistance *= self.velocity` (debug branch). -/
def debugAir (m : EnergyConsumptionModel) (p : MotiveParams)
    (t : ℕ) (k : Fin 6) : ℚ :=
  air_resistance m p t k * velocity m t k

/-- Line 210: `gradient_resistance *= self.velocity` (debug branch). -/
def debugGradient (npSin : ℚ → ℚ) (m : EnergyConsumptionModel)
    (p : MotiveParams) (t : ℕ) (k : Fin 6) : ℚ :=
  gradient_resistance npSin m p t k * velocity m t k

/-- Line 211: `inertia *= self.velocity` (debug branch). -/
def debugInertia (m : EnergyConsumptionModel) (p : MotiveParams)
    (t : ℕ) (k : Fin 6) : ℚ :=
  inertia m p t k * velocity m t k

/-- Line 212: `braking_loss *= self.velocity` (debug branch); `braking_loss`
was computed from the pre-update `inertia` on line 180. -/
def debugBraking (m : EnergyConsumptionModel) (p : MotiveParams)
    (t : ℕ) (k : Fin 6) : ℚ :=
  braking_loss m p t k * velocity m t k

/-- Lines 216-218: `energy = total_power / ttw_efficiency.values.T / 1000`
(debug branch; `total_power` is the clipped product of line 213-214). -/
def debugEnergy (npSin : ℚ → ℚ) (m : EnergyConsumptionModel)
    (p : MotiveParams) (t : ℕ) (k : Fin 6) : ℚ :=
  total_power_clipped npSin m p t k / p.ttw_efficiency k / 1000

/-- Return value of `motive_energy_per_km`: the energy tensor (non-debug) or
the seven-component tuple (debug). -/
inductive MotiveResult where
  | energyTensor (f : ℕ → Fin 6 → ℚ)
  | debugTuple (rolling air gradientR inertiaC braking totalPower energy :
      ℕ → Fin 6 → ℚ)

/-- `motive_energy_per_km` (lines 113-226).  In non-debug mode the body
accesses `recuperation_efficiency.values` (line 190) and
`motor_power.values` (line 191); a plain number there raises
`AttributeError`.  The debug branch never touches those two arguments. -/
def motive_energy_per_km (npSin : ℚ → ℚ) (m : EnergyConsumptionModel)
    (p : MotiveParams) (recuperation_efficiency motor_power : PyVal)
    (debug_mode : Bool) : Except PyError MotiveResult :=
  match debug_mode with
  | false =>
    match recuperation_efficiency, motor_power with
    | .arr re, .arr mp => .ok (.energyTensor (motiveOut npSin m p re mp))
    | _, _ => .error .attributeError
  | true =>
    .ok (.debugTuple (debugRolling m p) (debugAir m p)
      (debugGradient npSin m p) (debugInertia m p) (debugBraking m p)
      (total_power_clipped npSin m p) (debugEnergy npSin m p))

/-! ### Concrete fixtures used to evaluate the model -/

/-- Column 0 of the reshaped view. -/
def k0 : Fin 6 := ⟨0, by norm_num⟩

/-- A 12-sample custom cycle: one reshaped row at 36 km/h (10 m/s) followed
by one row at 72 km/h (20 m/s), with zero gradients. -/
def mTwoRows : EnergyConsumptionModel :=
  ⟨[36, 36, 36, 36, 36, 36, 72, 72, 72, 72, 72, 72],
   [0, 0, 0, 0, 0, 0, 0, 0, 0, 0, 0, 0], rhoDefault, "custom"⟩

/-- An 18-sample decelerating custom cycle: reshaped rows at 72, 36 and
0 km/h (20, 10, 0 m/s), with zero gradients. -/
def mDecel : EnergyConsumptionModel :=
  ⟨[72, 72, 72, 72, 72, 72, 36, 36, 36, 36, 36, 36, 0, 0, 0, 0, 0, 0],
   [0, 0, 0, 0, 0, 0, 0, 0, 0, 0, 0, 0, 0, 0, 0, 0, 0, 0], rhoDefault, "custom"⟩

/-- A 6-sample custom cycle with unequal samples (velocities 10 m/s on five
columns and 20 m/s on the last), with zero gradients. -/
def mUneven : EnergyConsumptionModel :=
  ⟨[36, 36, 36, 36, 36, 72], [0, 0, 0, 0, 0, 0], rhoDefault, "custom"⟩

/-- Unit parameters with rolling resistance 1 and no drag. -/
def pRoll : MotiveParams :=
  ⟨fun _ => 1, fun _ => 1, fun _ => 0, fun _ => 1, fun _ => 1⟩

/-- Unit mass with neither rolling resistance nor drag: only inertia acts. -/
def pInert : MotiveParams :=
  ⟨fun _ => 1, fun _ => 0, fun _ => 0, fun _ => 1, fun _ => 1⟩

/-! ### Helper lemmas -/

/-- Summing the returned non-debug tensor over its time axis moves the
divisions by distance, efficiency and 1000 outside the sum. -/
theorem sum_motiveOut (npSin : ℚ → ℚ) (m : EnergyConsumptionModel)
    (p : MotiveParams) (re mp : Fin 6 → ℚ) (k : Fin 6) :
    Finset.sum (Finset.range (nrows m)) (fun t => motiveOut npSin m p re mp t k)
      = (Finset.sum (Finset.range (nrows m))
          (fun t => netPower npSin m p re mp t k))
        / (distCol m k / 1000) / p.ttw_efficiency k / 1000 := by
  simp only [motiveOut, div_eq_mul_inv, ← Finset.sum_mul]

/-! ### C1 -/

/-- C1: the claim states the non-debug output of `motive_energy_per_km` is
reduced over the time dimension to a single per-kilometer value per variant
and is divided by the total distance.  False: on the two-row cycle the
returned tensor takes two different values at time rows 0 and 1 (so no time
reduction happened), and even its time sum differs from the claimed
formula normalized by the total distance over the whole flat series. -/
theorem C1_counterexample :
    motive_energy_per_km (fun _ => 0) mTwoRows pRoll
        (.arr (fun _ => 0)) (.arr (fun _ => 0)) false
      = .ok (.energyTensor (motiveOut (fun _ => 0) mTwoRows pRoll
          (fun _ => 0) (fun _ => 0))) ∧
    motiveOut (fun _ => 0) mTwoRows pRoll (fun _ => 0) (fun _ => 0) 0 k0 ≠
      motiveOut (fun _ => 0) mTwoRows pRoll (fun _ => 0) (fun _ => 0) 1 k0 ∧
    Finset.sum (Finset.range (nrows mTwoRows))
        (fun t => motiveOut (fun _ => 0) mTwoRows pRoll (fun _ => 0) (fun _ => 0) t k0)
      ≠ (Finset.sum (Finset.range (nrows mTwoRows))
          (fun t => netPower (fun _ => 0) mTwoRows pRoll (fun _ => 0) (fun _ => 0) t k0))
        / (velocityTotal mTwoRows / 1000) / pRoll.ttw_efficiency k0 / 1000 := by
  refine ⟨rfl, ?_, ?_⟩ <;>
    norm_num [motiveOut, netPower, total_power_clipped, recuperated_power, npClip,
      total_resistance, rolling_resistance, air_resistance, gradient_resistance,
      inertia, braking_loss, acceleration, velocity, velocityList, reshape6,
      distCol, velocityTotal, nrows, grav, mTwoRows, pRoll, gradient, k0,
      Finset.sum_range_succ]

/-- C1 (amended): the per-second total power is the clipped product of the
total resistance (rolling + air + gradient + inertia, without braking loss)
with velocity; recuperated power is subtracted; the result is divided by the
per-column distance of the reshaped view (in km), then by `ttw_efficiency`,
then by 1000, in that order — but the returned tensor keeps its time axis;
only its sum over time yields the per-kilometer energy value. -/
theorem C1_amended (npSin : ℚ → ℚ) (m : EnergyConsumptionModel)
    (p : MotiveParams) (re mp : Fin 6 → ℚ) :
    motive_energy_per_km npSin m p (.arr re) (.arr mp) false
      = .ok (.energyTensor (motiveOut npSin m p re mp)) ∧
    (∀ t k, motiveOut npSin m p re mp t k =
      (max ((rolling_resistance p k + air_resistance m p t k
          + gradient_resistance npSin m p t k + inertia m p t k)
          * velocity m t k) 0
        - npClip (braking_loss m p t k * re k * velocity m t k) 0 (mp k * 1000))
      / (distCol m k / 1000) / p.ttw_efficiency k / 1000) ∧
    (∀ k, Finset.sum (Finset.range (nrows m))
        (fun t => motiveOut npSin m p re mp t k)
      = (Finset.sum (Finset.range (nrows m))
          (fun t => netPower npSin m p re mp t k))
        / (distCol m k / 1000) / p.ttw_efficiency k / 1000) :=
  ⟨rfl, fun _ _ => rfl, fun k => sum_motiveOut npSin m p re mp k⟩

/-! ### C2 -/

/-- C2: the claim states the net total power after subtracting recuperated
power never goes below zero.  False: on the decelerating cycle with only
inertia acting, the clipped total power at row 1 is 0 while the recuperated
power is 100 W, so the net is -100 W. -/
theorem C2_counterexample :
    motive_energy_per_km (fun _ => 0) mDecel pInert
        (.arr (fun _ => 1)) (.arr (fun _ => 1)) false
      = .ok (.energyTensor (motiveOut (fun _ => 0) mDecel pInert
          (fun _ => 1) (fun _ => 1))) ∧
    netPower (fun _ => 0) mDecel pInert (fun _ => 1) (fun _ => 1) 1 k0 < 0 := by
  refine ⟨rfl, ?_⟩
  norm_num [netPower, total_power_clipped, recuperated_power, npClip,
    total_resistance, rolling_resistance, air_resistance, gradient_resistance,
    inertia, braking_loss, acceleration, velocity, velocityList, reshape6,
    nrows, grav, mDecel, pInert, gradient, k0]

/-- C2 (amended): before the subtraction the total power is clipped to be
nonnegative, and for nonnegative `motor_power` the recuperated power lies in
`[0, motor_power * 1000]`; the net power after the subtraction, however, can
go below zero (it is not re-clipped). -/
theorem C2_amended (npSin : ℚ → ℚ) (m : EnergyConsumptionModel)
    (p : MotiveParams) (re mp : Fin 6 → ℚ) (t : ℕ) (k : Fin 6)
    (h : 0 ≤ mp k) :
    0 ≤ total_power_clipped npSin m p t k ∧
    0 ≤ recuperated_power m p re mp t k ∧
    recuperated_power m p re mp t k ≤ mp k * 1000 := by
  refine ⟨le_max_right _ _, ?_, min_le_right _ _⟩
  exact le_min (le_max_right _ _) (by positivity)

/-- Witness for C2 (amended) at the decelerating fixture. -/
theorem C2_witness :
    0 ≤ total_power_clipped (fun _ => 0) mDecel pInert 1 k0 ∧
    0 ≤ recuperated_power mDecel pInert (fun _ => 1) (fun _ => 1) 1 k0 ∧
    recuperated_power mDecel pInert (fun _ => 1) (fun _ => 1) 1 k0 ≤ 1 * 1000 :=
  C2_amended (fun _ => 0) mDecel pInert (fun _ => 1) (fun _ => 1) 1 k0
    (by norm_num)

/-! ### C3 -/

/-- Pointwise, the recomputed debug total power minus the recuperated power
recomputed from the braking component is the non-debug net power. -/
theorem debug_recompute_net (npSin : ℚ → ℚ) (m : EnergyConsumptionModel)
    (p : MotiveParams) (re mp : Fin 6 → ℚ) (t : ℕ) (k : Fin 6) :
    max (debugRolling m p t k + debugAir m p t k + debugGradient npSin m p t k
        + debugInertia m p t k) 0
      - npClip (debugBraking m p t k * re k) 0 (mp k * 1000)
    = netPower npSin m p re mp t k := by
  have e1 : debugRolling m p t k + debugAir m p t k + debugGradient npSin m p t k
      + debugInertia m p t k = total_resistance npSin m p t k * velocity m t k := by
    unfold debugRolling debugAir debugGradient debugInertia total_resistance
    ring
  have e2 : debugBraking m p t k * re k
      = braking_loss m p t k * re k * velocity m t k := by
    unfold debugBraking
    ring
  rw [e1, e2]
  rfl

/-- C3: the claim states that the debug components, with total power
recomputed from them, divided by `ttw_efficiency` and 1000, summed over time
and normalized by distance, equal the tensor returned in non-debug mode.
False: on the decelerating fixture with recuperation the recomputed
aggregate is 0 while the non-debug tensor at time row 1 is -10/3 (the
non-debug output retains its time axis and subtracts recuperated power,
which the recomputation ignores). -/
theorem C3_counterexample :
    motive_energy_per_km (fun _ => 0) mDecel pInert
        (.arr (fun _ => 1)) (.arr (fun _ => 1)) true
      = .ok (.debugTuple (debugRolling mDecel pInert) (debugAir mDecel pInert)
          (debugGradient (fun _ => 0) mDecel pInert) (debugInertia mDecel pInert)
          (debugBraking mDecel pInert)
          (total_power_clipped (fun _ => 0) mDecel pInert)
          (debugEnergy (fun _ => 0) mDecel pInert)) ∧
    motive_energy_per_km (fun _ => 0) mDecel pInert
        (.arr (fun _ => 1)) (.arr (fun _ => 1)) false
      = .ok (.energyTensor (motiveOut (fun _ => 0) mDecel pInert
          (fun _ => 1) (fun _ => 1))) ∧
    (Finset.sum (Finset.range (nrows mDecel))
        (fun t => max (debugRolling mDecel pInert t k0 + debugAir mDecel pInert t k0
          + debugGradient (fun _ => 0) mDecel pInert t k0
          + debugInertia mDecel pInert t k0) 0))
      / pInert.ttw_efficiency k0 / 1000 / (distCol mDecel k0 / 1000)
      ≠ motiveOut (fun _ => 0) mDecel pInert (fun _ => 1) (fun _ => 1) 1 k0 := by
  refine ⟨rfl, rfl, ?_⟩
  norm_num [motiveOut, netPower, total_power_clipped, recuperated_power, npClip,
    total_resistance, rolling_resistance, air_resistance, gradient_resistance,
    inertia, braking_loss, acceleration, velocity, velocityList, reshape6,
    distCol, nrows, grav, mDecel, pInert, gradient, k0,
    debugRolling, debugAir, debugGradient, debugInertia,
    Finset.sum_range_succ]

/-- C3 (amended): from the debug components one recovers the non-debug
result by also recomputing the recuperated power from the braking component
(clipped to `[0, motor_power * 1000]`) and subtracting it from the
recomputed total power; dividing by `ttw_efficiency` and 1000, summing over
time and normalizing by the per-column distance then equals the sum over
time of the tensor returned in non-debug mode. -/
theorem C3_amended (npSin : ℚ → ℚ) (m : EnergyConsumptionModel)
    (p : MotiveParams) (re mp : Fin 6 → ℚ) :
    motive_energy_per_km npSin m p (.arr re) (.arr mp) true
      = .ok (.debugTuple (debugRolling m p) (debugAir m p)
          (debugGradient npSin m p) (debugInertia m p) (debugBraking m p)
          (total_power_clipped npSin m p) (debugEnergy npSin m p)) ∧
    motive_energy_per_km npSin m p (.arr re) (.arr mp) false
      = .ok (.energyTensor (motiveOut npSin m p re mp)) ∧
    ∀ k, (Finset.sum (Finset.range (nrows m))
        (fun t => max (debugRolling m p t k + debugAir m p t k
            + debugGradient npSin m p t k + debugInertia m p t k) 0
          - npClip (debugBraking m p t k * re k) 0 (mp k * 1000)))
      / p.ttw_efficiency k / 1000 / (distCol m k / 1000)
      = Finset.sum (Finset.range (nrows m))
          (fun t => motiveOut npSin m p re mp t k) := by
  refine ⟨rfl, rfl, fun k => ?_⟩
  rw [Finset.sum_congr rfl
    (fun t _ => debug_recompute_net npSin m p re mp t k), sum_motiveOut]
  ring

/-! ### C4 -/

/-- C4: the claim states `aux_energy_per_km` returns
`aux_power * N / D * 1000 / 1000 / efficiency` with `N` the number of
seconds in the cycle and `D` the sum of the whole velocity series.  False:
on the 6-sample uneven cycle the code returns 100 kJ/km at column 0 (it uses
the number of reshaped time rows, `N / 6`, and the per-column velocity sum),
while the claimed formula gives `600/7`. -/
theorem C4_counterexample :
    aux_energy_per_km mUneven (fun _ => 1000) 1 k0
      ≠ 1000 * (mUneven.cycle.length : ℚ) / velocityTotal mUneven
        * 1000 / 1000 / 1 := by
  norm_num [aux_energy_per_km, velocityTotal, velocityList, velocity, reshape6,
    distCol, nrows, mUneven, k0, Finset.sum_range_succ]

/-- C4 (amended): `aux_energy_per_km` returns
`aux_power * (number of reshaped time rows, cycle length / 6) / (per-column
velocity sum) * 1000 / 1000 / efficiency`; on a constant-speed cycle every
column sum is a sixth of the total, so there the claimed
`aux_power * N / D * 1000 / 1000 / efficiency` formula does hold, with `N`
the cycle length in seconds and `D` the total metres. -/
theorem C4_amended (c : ℚ) (n : ℕ) (gr : List ℚ) (rho : ℚ) (nm : String)
    (ap : Fin 6 → ℚ) (eff : ℚ) (k : Fin 6) (h6 : 6 ∣ n) :
    (∀ (m : EnergyConsumptionModel) (ap2 : Fin 6 → ℚ) (eff2 : ℚ) (k2 : Fin 6),
      aux_energy_per_km m ap2 eff2 k2
        = ap2 k2 * (nrows m : ℚ) / distCol m k2 * 1000 / 1000 / eff2) ∧
    aux_energy_per_km ⟨List.replicate n c, gr, rho, nm⟩ ap eff k
      = ap k * (n : ℚ) / velocityTotal ⟨List.replicate n c, gr, rho, nm⟩
        * 1000 / 1000 / eff := by
  obtain ⟨R, rfl⟩ := h6
  refine ⟨fun _ _ _ _ => rfl, ?_⟩
  have hv : velocityList ⟨List.replicate (6 * R) c, gr, rho, nm⟩
      = List.replicate (6 * R) (c * 1000 / 3600) := by
    simp [velocityList, List.map_replicate]
  have hnrows : nrows ⟨List.replicate (6 * R) c, gr, rho, nm⟩ = R := by
    simp [nrows]
  have hvel : ∀ t, t < R →
      velocity ⟨List.replicate (6 * R) c, gr, rho, nm⟩ t k = c * 1000 / 3600 := by
    intro t ht
    have hlt : 6 * t + k.val < 6 * R := by
      have := k.isLt
      omega
    simp [velocity, reshape6, hv, List.getD_eq_getElem?_getD,
      List.getElem?_replicate, hlt]
  have hdist : distCol ⟨List.replicate (6 * R) c, gr, rho, nm⟩ k
      = (R : ℚ) * (c * 1000 / 3600) := by
    unfold distCol
    rw [hnrows, Finset.sum_congr rfl
      (fun t ht => hvel t (Finset.mem_range.mp ht))]
    simp [Finset.sum_const, Finset.card_range, nsmul_eq_mul]
  have hvt : velocityTotal ⟨List.replicate (6 * R) c, gr, rho, nm⟩
      = ((6 * R : ℕ) : ℚ) * (c * 1000 / 3600) := by
    simp [velocityTotal, hv, List.sum_replicate, nsmul_eq_mul]
  unfold aux_energy_per_km
  rw [hnrows, hdist, hvt]
  push_cast
  rcases eq_or_ne (R : ℚ) 0 with hR | hR
  · rw [hR]
    simp
  · rcases eq_or_ne (c * 1000 / 3600) 0 with hc | hc
    · rw [hc]
      simp
    · field_simp
      ring

/-- Witness for C4 (amended) on a 12-second constant 36 km/h cycle. -/
theorem C4_witness :
    aux_energy_per_km ⟨List.replicate 12 (36 : ℚ), [], rhoDefault, "custom"⟩
        (fun _ => 1000) 1 k0
      = 1000 * ((12 : ℕ) : ℚ)
        / velocityTotal ⟨List.replicate 12 (36 : ℚ), [], rhoDefault, "custom"⟩
        * 1000 / 1000 / 1 :=
  (C4_amended 36 12 [] rhoDefault "custom" (fun _ => 1000) 1 k0
    (by norm_num)).2

/-! ### C5 -/

/-- C5: for every cycle, the derived acceleration series (indexed along the
time axis of the reshaped view, the axis the source slices) is zero at the
first and last rows and equals the centred difference
`(velocity[i+1] - velocity[i-1]) / 2` at every interior row. -/
theorem C5_theorem (m : EnergyConsumptionModel) :
    (∀ k, acceleration m 0 k = 0) ∧
    (∀ k, acceleration m (nrows m - 1) k = 0) ∧
    (∀ i k, 1 ≤ i → i + 1 ≤ nrows m - 1 →
      acceleration m i k = (velocity m (i + 1) k - velocity m (i - 1) k) / 2) := by
  refine ⟨fun k => ?_, fun k => ?_, fun i k h1 h2 => ?_⟩
  · simp [acceleration]
  · unfold acceleration
    rw [if_neg]
    omega
  · unfold acceleration
    rw [if_pos ⟨h1, h2⟩]

/-- Witness for C5 at interior row 1 of the three-row decelerating cycle. -/
theorem C5_witness :
    acceleration mDecel 1 k0
      = (velocity mDecel 2 k0 - velocity mDecel 0 k0) / 2 :=
  (C5_theorem mDecel).2.2 1 k0 (by norm_num)
    (by norm_num [nrows, mDecel])

/-! ### C6 -/

/-- C6: the derived velocity buffer holds `cycle[i] * 1000 / 3600` at every
index of the flat buffer, and has the same length as the input cycle. -/
theorem C6_theorem (m : EnergyConsumptionModel) (i : ℕ)
    (h : i < m.cycle.length) :
    (velocityList m).getD i 0 = m.cycle.getD i 0 * 1000 / 3600 ∧
    (velocityList m).length = m.cycle.length := by
  constructor
  · have hh : m.cycle[i]? = some m.cycle[i] := List.getElem?_eq_getElem h
    simp [velocityList, List.getD_eq_getElem?_getD, List.getElem?_map, hh]
  · simp [velocityList]

/-- Witness for C6 at index 5 of the uneven 6-sample cycle. -/
theorem C6_witness :
    (velocityList mUneven).getD 5 0 = mUneven.cycle.getD 5 0 * 1000 / 3600 ∧
    (velocityList mUneven).length = mUneven.cycle.length :=
  C6_theorem mUneven 5 (by norm_num [mUneven])

/-! ### C7 -/

/-- C7: the claim states construction with an unresolvable cycle name fails
with `ConfigurationError`.  False: the code catches the registry `KeyError`
and executes `raise ("The driving cycle specified could not be found.")` —
raising a plain string, which Python 3 rejects with `TypeError`; no
`ConfigurationError` class exists in the code. -/
theorem C7_counterexample :
    initECM (fun _ => none) (fun _ => none)
        (.named "nonexistent-cycle-xyz") rhoDefault
      = .error (.typeErrorRaiseStr "The driving cycle specified could not be found.") ∧
    (Except.error (PyError.typeErrorRaiseStr "The driving cycle specified could not be found.")
        : Except PyError EnergyConsumptionModel)
      ≠ .error .configurationError := by
  refine ⟨rfl, ?_⟩
  simp

/-- C7 (amended): construction with an unresolvable cycle name, or with a
value that is neither a string nor an array, fails — no model is produced —
but with a `TypeError` from raising a plain string message, not with a
`ConfigurationError`. -/
theorem C7_amended (registry gradientsReg : String → Option (List ℚ))
    (s : String) (rho : ℚ) (h : registry s = none) :
    initECM registry gradientsReg (.named s) rho
      = .error (.typeErrorRaiseStr "The driving cycle specified could not be found.") ∧
    initECM registry gradientsReg .other rho
      = .error (.typeErrorRaiseStr "The format of the driving cycle is not valid.") := by
  constructor
  · simp [initECM, get_standard_driving_cycle, h]
  · rfl

/-- Witness for C7 (amended) with an empty registry. -/
theorem C7_witness :
    initECM (fun _ => none) (fun _ => none) (.named "nonexistent-cycle-xyz") 1
      = .error (.typeErrorRaiseStr "The driving cycle specified could not be found.") ∧
    initECM (fun _ => none) (fun _ => none) .other 1
      = .error (.typeErrorRaiseStr "The format of the driving cycle is not valid.") :=
  C7_amended (fun _ => none) (fun _ => none) "nonexistent-cycle-xyz" 1 rfl

/-! ### C8 -/

/-- C8: the claim states `motive_energy_per_km` validates its inputs,
failing with `DomainError` for out-of-range coefficients or nonpositive
`ttw_efficiency` and with `ShapeMismatchError` for bad shapes.  False: with
`rr_coef = 2`, `drag_coef = 2` and `ttw_efficiency = 0` simultaneously the
call still succeeds and returns an energy tensor; no validation exists in
the code. -/
theorem C8_counterexample :
    motive_energy_per_km (fun _ => 0) mUneven
        ⟨fun _ => 1, fun _ => 2, fun _ => 2, fun _ => 1, fun _ => 0⟩
        (.arr (fun _ => 1)) (.arr (fun _ => 1)) false
      = .ok (.energyTensor (motiveOut (fun _ => 0) mUneven
          ⟨fun _ => 1, fun _ => 2, fun _ => 2, fun _ => 1, fun _ => 0⟩
          (fun _ => 1) (fun _ => 1))) ∧
    motive_energy_per_km (fun _ => 0) mUneven
        ⟨fun _ => 1, fun _ => 2, fun _ => 2, fun _ => 1, fun _ => 0⟩
        (.arr (fun _ => 1)) (.arr (fun _ => 1)) false
      ≠ .error .domainError ∧
    motive_energy_per_km (fun _ => 0) mUneven
        ⟨fun _ => 1, fun _ => 2, fun _ => 2, fun _ => 1, fun _ => 0⟩
        (.arr (fun _ => 1)) (.arr (fun _ => 1)) false
      ≠ .error .shapeMismatchError := by
  refine ⟨rfl, ?_, ?_⟩ <;> simp [motive_energy_per_km]

/-- C8 (amended): no pre-validation is performed in either method: for every
parameter values — including coefficients outside `[0,1]` and nonpositive
efficiencies — `motive_energy_per_km` returns the energy tensor and never a
typed error, and `aux_energy_per_km` totally computes its formula (a
nonpositive efficiency flows into the division instead of raising). -/
theorem C8_amended (npSin : ℚ → ℚ) (m : EnergyConsumptionModel)
    (p : MotiveParams) (re mp : Fin 6 → ℚ) (aux_power : Fin 6 → ℚ)
    (efficiency : ℚ) (k : Fin 6) (e : PyError) :
    motive_energy_per_km npSin m p (.arr re) (.arr mp) false
      = .ok (.energyTensor (motiveOut npSin m p re mp)) ∧
    motive_energy_per_km npSin m p (.arr re) (.arr mp) false ≠ .error e ∧
    aux_energy_per_km m aux_power efficiency k
      = aux_power k * (nrows m : ℚ) / distCol m k * 1000 / 1000 / efficiency := by
  refine ⟨rfl, ?_, rfl⟩
  simp [motive_energy_per_km]

/-! ### C9 -/

/-- C9: calling `motive_energy_per_km` with the declared defaults
`recuperation_efficiency = 0, motor_power = 0` (plain numbers) does not
succeed as the claim states: line 190 evaluates
`recuperation_efficiency.values`, and a plain `0` has no `.values`
attribute, so the call raises `AttributeError`. -/
theorem C9_theorem :
    motive_energy_per_km (fun _ => 0) mUneven pRoll (.num 0) (.num 0) false
      = .error .attributeError := rfl

/-! ### C10 -/

/-- Inversion of `reshapeLast6`: success returns the buffer unchanged and
certifies divisibility by 6. -/
theorem reshapeLast6_ok {l r : List ℚ} (h : reshapeLast6 l = .ok r) :
    r = l ∧ 6 ∣ l.length := by
  by_cases hd : 6 ∣ l.length
  · refine ⟨?_, hd⟩
    simpa [reshapeLast6, hd] using h.symm
  · simp [reshapeLast6, hd] at h

/-- Inversion of `initResolved`: a successfully constructed model keeps the
resolved cycle buffer and both buffers have lengths divisible by 6. -/
theorem initResolved_ok {gradientsReg : String → Option (List ℚ)}
    {nm : String} {cyc : List ℚ} {rho : ℚ} {m : EnergyConsumptionModel}
    (h : initResolved gradientsReg nm cyc rho = .ok m) :
    m.cycle = cyc ∧ 6 ∣ m.cycle.length ∧ 6 ∣ m.gradientL.length := by
  unfold initResolved at h
  split at h
  · simp at h
  · split at h
    · simp at h
    · split at h
      · simp at h
      · rename_i x1 g hg x2 g2 hr1 x3 c2 hr2
        obtain ⟨hg2, hgdvd⟩ := reshapeLast6_ok hr1
        obtain ⟨hc2, hcdvd⟩ := reshapeLast6_ok hr2
        have hm : m = ⟨c2, g2, rho, nm⟩ := by
          simpa using h.symm
        subst hm
        subst hg2
        subst hc2
        exact ⟨rfl, hcdvd, hgdvd⟩

/-- C10: construction succeeds only when the resolved cycle and gradient
buffers each hold a multiple of 6 samples (the `reshape(-1,1,1,6)` calls),
and the time axis of the derived series then has length `cycle length / 6`;
an explicit cycle whose length is not divisible by 6 never yields a model. -/
theorem C10_theorem (registry gradientsReg : String → Option (List ℚ))
    (input : CycleInput) (rho : ℚ) :
    (∀ m, initECM registry gradientsReg input rho = .ok m →
      6 ∣ m.cycle.length ∧ 6 ∣ m.gradientL.length ∧
      nrows m = m.cycle.length / 6) ∧
    (∀ a : List ℚ, ¬ (6 ∣ a.length) → ∀ m,
      initECM registry gradientsReg (.explicitArr a) rho ≠ .ok m) := by
  constructor
  · intro m hm
    rcases input with s | a | _
    · simp only [initECM] at hm
      split at hm
      · simp at hm
      · simp at hm
      · obtain ⟨-, h2, h3⟩ := initResolved_ok hm
        exact ⟨h2, h3, rfl⟩
    · obtain ⟨-, h2, h3⟩ := initResolved_ok hm
      exact ⟨h2, h3, rfl⟩
    · simp [initECM] at hm
  · intro a ha m hm
    obtain ⟨hc, h2, -⟩ := initResolved_ok hm
    exact ha (hc ▸ h2)

/-- Witness for C10: a 6-sample explicit cycle with a 6-sample gradient
constructs successfully, and a 1-sample cycle never does. -/
theorem C10_witness :
    (6 ∣ (⟨[36, 36, 36, 36, 36, 72], [0, 0, 0, 0, 0, 0], 1, "custom"⟩
        : EnergyConsumptionModel).cycle.length ∧
     6 ∣ (⟨[36, 36, 36, 36, 36, 72], [0, 0, 0, 0, 0, 0], 1, "custom"⟩
        : EnergyConsumptionModel).gradientL.length ∧
     nrows ⟨[36, 36, 36, 36, 36, 72], [0, 0, 0, 0, 0, 0], 1, "custom"⟩
       = (⟨[36, 36, 36, 36, 36, 72], [0, 0, 0, 0, 0, 0], 1, "custom"⟩
        : EnergyConsumptionModel).cycle.length / 6) ∧
    initECM (fun _ => none) (fun _ => some [0, 0, 0, 0, 0, 0])
        (.explicitArr [0]) 1
      ≠ .ok ⟨[36, 36, 36, 36, 36, 72], [0, 0, 0, 0, 0, 0], 1, "custom"⟩ :=
  ⟨(C10_theorem (fun _ => none) (fun _ => some [0, 0, 0, 0, 0, 0])
      (.explicitArr [36, 36, 36, 36, 36, 72]) 1).1
      ⟨[36, 36, 36, 36, 36, 72], [0, 0, 0, 0, 0, 0], 1, "custom"⟩ rfl,
   (C10_theorem (fun _ => none) (fun _ => some [0, 0, 0, 0, 0, 0])
      (.explicitArr [0]) 1).2 [0] (by decide)
      ⟨[36, 36, 36, 36, 36, 72], [0, 0, 0, 0, 0, 0], 1, "custom"⟩⟩

end CarculatorTruck
